import Mathlib

/-!
Verification development for the QuickDesk presentation layer.

Shallow embedding of the two source files:
- `src/src/pages/Dashboard.tsx` (the `Dashboard` component with its helpers
  `checkUser`, `fetchTickets`, `handleLogout`, `getStatusColor`, and the JSX
  render tree), and
- the landing page component `Index` (session check plus static marketing
  content).

The external backend (supabase client) is modelled as a record of responses;
the supabase JS client surfaces failures as `null` data rather than by
throwing, so a failed call is modelled as `none`. Asynchronous handlers are
modelled as pure functions from the backend responses and the current local
state to the updated state together with the lists of navigation and fetch
side effects they issue. Strings are Lean strings; the JS
`description.substring(0, 100)` is embedded as taking the first 100
characters of the string's character list.
-/

namespace QuickDesk

/-- Role of a profile: the closed set `'user' | 'agent' | 'admin'` from the
`Profile` interface in Dashboard.tsx. -/
inductive Role
  | user
  | agent
  | admin
deriving DecidableEq, Repr

/-- The `Profile` interface: `id`, `name`, `role`. -/
structure Profile where
  id : String
  name : String
  role : Role
deriving DecidableEq, Repr

/-- The `Ticket` interface of Dashboard.tsx. `status` is kept as a raw string
because `getStatusColor` is typed over arbitrary strings in the source;
`categories : { name: string } | null` is embedded as the optional name. -/
structure Ticket where
  id : String
  subject : String
  description : String
  status : String
  created_at : String
  upvotes : Nat
  categories : Option String
deriving DecidableEq, Repr

/-- An authenticated user as returned by `supabase.auth.getUser()`; only the
`id` field is consumed by the source. -/
structure User where
  id : String
deriving DecidableEq, Repr

/-- Abstract navigation destinations used with `navigate(...)` in the two
components. -/
inductive Route
  | landing
  | login
  | register
  | dashboard
  | tickets
  | ticketsNew
  | admin
  | ticketDetail (id : String)
deriving DecidableEq, Repr

/-- Shape of the supabase query issued by `fetchTickets`: target table,
projected columns, ordering and row limit. -/
structure TicketsQuery where
  table : String
  columns : List String
  orderColumn : String
  orderAscending : Bool
  limit : Nat
deriving DecidableEq, Repr

/-- The query built in `fetchTickets`:
`from("tickets").select(id, subject, description, status, created_at,
upvotes, categories(name)).order("created_at", { ascending: false
}).limit(5)`. -/
def fetchTicketsQuery : TicketsQuery :=
  { table := "tickets"
    columns := ["id", "subject", "description", "status", "created_at",
                "upvotes", "categories(name)"]
    orderColumn := "created_at"
    orderAscending := false
    limit := 5 }

/-- The external backend collaborator: the responses the supabase client
returns to this code. `none` models both a missing row / null data and a
caught failure, since the client returns `{ data: null }` on error instead of
throwing. -/
structure Backend where
  currentUser : Option User
  profileRow : String → Option Profile
  ticketsData : Option (List Ticket)

/-- Local component state of `Dashboard` (the four `useState` hooks). -/
structure DashboardState where
  user : Option User
  profile : Option Profile
  tickets : List Ticket
  loading : Bool
deriving Repr

/-- Initial hook values: `user = null`, `profile = null`, `tickets = []`,
`loading = true`. -/
def initialDashboardState : DashboardState :=
  { user := none, profile := none, tickets := [], loading := true }

/-- Data fetches the dashboard can issue beyond the session lookup. -/
inductive FetchOp
  | profileFetch (userId : String)
  | ticketsFetch
deriving DecidableEq, Repr

/-- Embedding of `checkUser`: resolve the session; if no user, navigate to
`/login` and return (no profile fetch, `loading` untouched); otherwise store
the user, fetch and store the profile row for `user.id`, and clear `loading`.
Result: updated state, navigations issued, fetches issued. -/
def checkUser (b : Backend) (s : DashboardState) :
    DashboardState × List Route × List FetchOp :=
  match b.currentUser with
  | none => (s, [Route.login], [])
  | some u =>
      ({ s with
          user := some u
          profile := b.profileRow u.id
          loading := false },
       [], [FetchOp.profileFetch u.id])

/-- Embedding of `fetchTickets`: run the tickets query and set
`tickets = data || []`. -/
def fetchTickets (b : Backend) (s : DashboardState) : DashboardState :=
  { s with tickets := b.ticketsData.getD [] }

/-- Embedding of the mount effect `useEffect(() => { checkUser();
fetchTickets(); }, [])`: both handlers run, `fetchTickets` unconditionally. -/
def mountDashboard (b : Backend) :
    DashboardState × List Route × List FetchOp :=
  let r := checkUser b initialDashboardState
  (fetchTickets b r.1, r.2.1, r.2.2 ++ [FetchOp.ticketsFetch])

/-- The route actually displayed after a list of `navigate` calls, starting
from `start`: the last navigation wins, otherwise the surface stays put. -/
def displayedRouteAfter (start : Route) (navs : List Route) : Route :=
  (navs.getLast?).getD start

/-- Embedding of `getStatusColor`: a switch over the status string with a
default arm identical to the `closed` arm. -/
def getStatusColor (status : String) : String :=
  if status = "open" then "bg-red-100 text-red-800"
  else if status = "in_progress" then "bg-yellow-100 text-yellow-800"
  else if status = "resolved" then "bg-green-100 text-green-800"
  else if status = "closed" then "bg-gray-100 text-gray-800"
  else "bg-gray-100 text-gray-800"

/-- One rendered ticket row of the "Recent Tickets" list: the `key`, the
subject heading, the truncated description text, the status badge (class from
`getStatusColor`, label the raw status), the optional category badge, the
upvote caption, the raw creation timestamp, and the row's click target. -/
structure TicketRow where
  key : String
  subject : String
  descriptionText : String
  statusBadgeClass : String
  statusBadgeText : String
  categoryBadge : Option String
  upvotesText : String
  createdAtRaw : String
  clickTarget : Route
deriving DecidableEq, Repr

/-- Embedding of the JSX produced for one ticket inside `tickets.map`:
`{ticket.description.substring(0, 100)}...` renders the first 100 characters
followed by the literal ellipsis; `{ticket.categories && <Badge>...}` renders
the category badge only when `categories` is non-null; clicking navigates to
the per-ticket detail route. -/
def renderTicketRow (t : Ticket) : TicketRow :=
  { key := t.id
    subject := t.subject
    descriptionText := String.mk (t.description.data.take 100) ++ "..."
    statusBadgeClass := getStatusColor t.status
    statusBadgeText := t.status
    categoryBadge := t.categories
    upvotesText := toString t.upvotes ++ " upvotes"
    createdAtRaw := t.created_at
    clickTarget := Route.ticketDetail t.id }

/-- The ticket section of the dashboard card: either the explicit empty-state
paragraph or the list of rendered rows. -/
inductive TicketSection
  | emptyState (message : String)
  | rows (items : List TicketRow)
deriving DecidableEq, Repr

/-- Embedding of `{tickets.length === 0 ? <p>No tickets found...</p> :
<div>{tickets.map(...)}</div>}`. -/
def renderTicketSection (tickets : List Ticket) : TicketSection :=
  if tickets.length = 0 then
    TicketSection.emptyState
      "No tickets found. Create your first ticket to get started!"
  else
    TicketSection.rows (tickets.map renderTicketRow)

/-- Embedding of the admin-tile guard
`(profile?.role === 'admin' || profile?.role === 'agent')`: optional chaining
on a null profile yields `undefined`, which fails both comparisons. -/
def adminTileRendered (profile : Option Profile) : Bool :=
  profile.map Profile.role == some Role.admin
    || profile.map Profile.role == some Role.agent

/-- What the `Dashboard` component returns: the early `Loading...` screen
while `loading` is true, otherwise the main page carrying the (possibly
absent) admin tile and the ticket section. -/
inductive DashboardView
  | loadingView
  | mainView (adminTile : Bool) (ticketSection : TicketSection)
deriving DecidableEq, Repr

/-- Embedding of the `Dashboard` render: `if (loading) return <Loading/>`,
else the page with the role-gated tile and the recent-tickets card. -/
def renderDashboard (s : DashboardState) : DashboardView :=
  if s.loading then DashboardView.loadingView
  else
    DashboardView.mainView (adminTileRendered s.profile)
      (renderTicketSection s.tickets)

/-- Observable side effects of the logout handler, in program order. -/
inductive Effect
  | signOutCall
  | navigateTo (r : Route)
  | toast (title : String) (description : String)
deriving DecidableEq, Repr

/-- Outcome of `supabase.auth.signOut()`. -/
inductive SignOutResult
  | success
  | failure
deriving DecidableEq, Repr

/-- Embedding of `handleLogout`: await `signOut()` (its result is never
inspected), then `navigate("/login")`, then the confirmation toast. -/
def handleLogout (signOutResult : SignOutResult) : List Effect :=
  [Effect.signOutCall,
   Effect.navigateTo Route.login,
   Effect.toast "Logged out" "You have been logged out successfully"]

/-- What the landing page (`Index`) renders: always the static public
marketing content; the session check only issues a navigation. -/
inductive LandingView
  | publicContent
deriving DecidableEq, Repr

/-- Embedding of the `Index` mount effect: `if (user) navigate("/dashboard")`,
no navigation otherwise. -/
def indexMount (currentUser : Option User) : List Route :=
  match currentUser with
  | some _ => [Route.dashboard]
  | none => []

/-- Embedding of the `Index` render: the public content, unconditionally. -/
def renderIndex : LandingView := LandingView.publicContent

/-- A minimal concrete ticket, used to instantiate universal statements. -/
def sampleTicket (n : String) : Ticket :=
  { id := n
    subject := "s"
    description := "d"
    status := "open"
    created_at := "2024-01-01"
    upvotes := 0
    categories := none }

/-- Six concrete tickets: one more than the query limit, to exercise the
pass-through rendering on a list longer than 5. -/
def sampleTickets : List Ticket :=
  [sampleTicket "1", sampleTicket "2", sampleTicket "3",
   sampleTicket "4", sampleTicket "5", sampleTicket "6"]

/-- A backend with no session and failing data calls. -/
def noSessionBackend : Backend :=
  { currentUser := none, profileRow := fun _ => none, ticketsData := none }

/-- C1: the status-to-style function is pure and total: each of the four
status values maps to a fixed non-empty style token, deterministically, and
every input string outside the closed set maps to the same token as
"closed". -/
theorem getStatusColor_total_fixed_default (s : String)
    (h : s ≠ "open" ∧ s ≠ "in_progress" ∧ s ≠ "resolved" ∧ s ≠ "closed") :
    getStatusColor "open" = "bg-red-100 text-red-800" ∧
    getStatusColor "in_progress" = "bg-yellow-100 text-yellow-800" ∧
    getStatusColor "resolved" = "bg-green-100 text-green-800" ∧
    getStatusColor "closed" = "bg-gray-100 text-gray-800" ∧
    getStatusColor "open" ≠ "" ∧
    getStatusColor "in_progress" ≠ "" ∧
    getStatusColor "resolved" ≠ "" ∧
    getStatusColor "closed" ≠ "" ∧
    getStatusColor s = getStatusColor "closed" := by
  obtain ⟨h1, h2, h3, h4⟩ := h
  refine ⟨by decide, by decide, by decide, by decide, by decide, by decide,
    by decide, by decide, ?_⟩
  simp [getStatusColor, h1, h2, h3, h4]

/-- Witness for C1 at the out-of-set input "banana". -/
theorem getStatusColor_total_fixed_default_witness :
    ("banana" ≠ "open" ∧ "banana" ≠ "in_progress" ∧
     "banana" ≠ "resolved" ∧ "banana" ≠ "closed") ∧
    (getStatusColor "open" = "bg-red-100 text-red-800" ∧
     getStatusColor "in_progress" = "bg-yellow-100 text-yellow-800" ∧
     getStatusColor "resolved" = "bg-green-100 text-green-800" ∧
     getStatusColor "closed" = "bg-gray-100 text-gray-800" ∧
     getStatusColor "open" ≠ "" ∧
     getStatusColor "in_progress" ≠ "" ∧
     getStatusColor "resolved" ≠ "" ∧
     getStatusColor "closed" ≠ "" ∧
     getStatusColor "banana" = getStatusColor "closed") :=
  ⟨by decide, getStatusColor_total_fixed_default "banana" (by decide)⟩

/-- C2: for every ticket description (empty and short strings included), the
rendered description text is the prefix of length min(100, original length)
followed by the fixed ellipsis "..."; the ellipsis is appended even when the
description has at most 100 characters. -/
theorem renderTicketRow_description_truncation (t : Ticket) :
    (renderTicketRow t).descriptionText
      = String.mk (t.description.data.take 100) ++ "..." ∧
    t.description.data.take 100 <+: t.description.data ∧
    (String.mk (t.description.data.take 100)).length
      = min 100 t.description.length ∧
    (renderTicketRow t).descriptionText.length
      = min 100 t.description.length + 3 ∧
    (t.description.length ≤ 100 →
      (renderTicketRow t).descriptionText = t.description ++ "...") := by
  refine ⟨rfl, List.take_prefix 100 t.description.data, ?_, ?_, ?_⟩
  · show (t.description.data.take 100).length = min 100 t.description.data.length
    exact List.length_take 100 t.description.data
  · show (String.mk (t.description.data.take 100) ++ "...").length
      = min 100 t.description.length + 3
    rw [String.length_append]
    show (t.description.data.take 100).length + 3
      = min 100 t.description.data.length + 3
    rw [List.length_take]
  · intro hle
    show String.mk (t.description.data.take 100) ++ "..." = t.description ++ "..."
    have hdata : t.description.data.length ≤ 100 := hle
    rw [List.take_of_length_le hdata]

/-- Witness for C2 at a concrete ticket with a 1-character description. -/
theorem renderTicketRow_description_truncation_witness :
    (renderTicketRow (sampleTicket "1")).descriptionText
      = String.mk ((sampleTicket "1").description.data.take 100) ++ "..." ∧
    (sampleTicket "1").description.data.take 100
      <+: (sampleTicket "1").description.data ∧
    (String.mk ((sampleTicket "1").description.data.take 100)).length
      = min 100 (sampleTicket "1").description.length ∧
    (renderTicketRow (sampleTicket "1")).descriptionText.length
      = min 100 (sampleTicket "1").description.length + 3 ∧
    ((sampleTicket "1").description.length ≤ 100 →
      (renderTicketRow (sampleTicket "1")).descriptionText
        = (sampleTicket "1").description ++ "...") :=
  renderTicketRow_description_truncation (sampleTicket "1")

/-- C3: the admin-panel tile is rendered iff the resolved profile's role is
admin or agent; for role user and for an absent profile it is not rendered —
exhaustive over the closed role set plus the absent-profile case. -/
theorem adminTileRendered_role_gate (id name : String) :
    adminTileRendered (some ⟨id, name, Role.admin⟩) = true ∧
    adminTileRendered (some ⟨id, name, Role.agent⟩) = true ∧
    adminTileRendered (some ⟨id, name, Role.user⟩) = false ∧
    adminTileRendered none = false :=
  ⟨rfl, rfl, rfl, rfl⟩

/-- C4: on dashboard mount with no active session, the only navigation
issued is to the sign-in destination, `checkUser` performs no further data
fetch (in particular no profile fetch), the displayed route ends up being the
sign-in route, and the dashboard surface still shows the loading view — so
no ticket fetch result is rendered. -/
theorem mountDashboard_no_session (b : Backend) (h : b.currentUser = none) :
    (mountDashboard b).2.1 = [Route.login] ∧
    (checkUser b initialDashboardState).2.2 = [] ∧
    displayedRouteAfter Route.dashboard (mountDashboard b).2.1 = Route.login ∧
    renderDashboard (mountDashboard b).1 = DashboardView.loadingView := by
  simp [mountDashboard, checkUser, h, fetchTickets, initialDashboardState,
    renderDashboard, displayedRouteAfter]

/-- Witness for C4 at a concrete backend with no session. -/
theorem mountDashboard_no_session_witness :
    noSessionBackend.currentUser = none ∧
    ((mountDashboard noSessionBackend).2.1 = [Route.login] ∧
     (checkUser noSessionBackend initialDashboardState).2.2 = [] ∧
     displayedRouteAfter Route.dashboard (mountDashboard noSessionBackend).2.1
       = Route.login ∧
     renderDashboard (mountDashboard noSessionBackend).1
       = DashboardView.loadingView) :=
  ⟨rfl, mountDashboard_no_session noSessionBackend rfl⟩

/-- C5: the ticket fetch targets the tickets table ordered by creation time
descending with limit 5, projecting exactly id, subject, description, status,
created_at, upvotes and the category name; and a ticket whose category is
absent renders no category badge. -/
theorem fetchTicketsQuery_shape (t : Ticket) (h : t.categories = none) :
    fetchTicketsQuery.table = "tickets" ∧
    fetchTicketsQuery.orderColumn = "created_at" ∧
    fetchTicketsQuery.orderAscending = false ∧
    fetchTicketsQuery.limit = 5 ∧
    fetchTicketsQuery.columns
      = ["id", "subject", "description", "status", "created_at", "upvotes",
         "categories(name)"] ∧
    (renderTicketRow t).categoryBadge = none :=
  ⟨rfl, rfl, rfl, rfl, rfl, h⟩

/-- Witness for C5 at a concrete category-less ticket. -/
theorem fetchTicketsQuery_shape_witness :
    (sampleTicket "7").categories = none ∧
    (fetchTicketsQuery.table = "tickets" ∧
     fetchTicketsQuery.orderColumn = "created_at" ∧
     fetchTicketsQuery.orderAscending = false ∧
     fetchTicketsQuery.limit = 5 ∧
     fetchTicketsQuery.columns
       = ["id", "subject", "description", "status", "created_at", "upvotes",
          "categories(name)"] ∧
     (renderTicketRow (sampleTicket "7")).categoryBadge = none) :=
  ⟨rfl, fetchTicketsQuery_shape (sampleTicket "7") rfl⟩

/-- C6: backend-call failures are absorbed at the call site: a failed ticket
fetch leaves the empty ticket list, and the whole mount outcome is identical
to that against a backend where zero tickets exist; a failed profile fetch
leaves an absent profile, which suppresses the role-gated tile. Hard crashes
cannot occur: every handler is a total function of the backend responses. -/
theorem backend_failures_degrade (b bEmpty : Backend)
    (hfail : b.ticketsData = none) (hempty : bEmpty.ticketsData = some [])
    (hu : bEmpty.currentUser = b.currentUser)
    (hp : bEmpty.profileRow = b.profileRow) :
    (mountDashboard b).1.tickets = [] ∧
    mountDashboard b = mountDashboard bEmpty ∧
    (∀ u, b.currentUser = some u → b.profileRow u.id = none →
      (mountDashboard b).1.profile = none ∧
      adminTileRendered (mountDashboard b).1.profile = false) := by
  refine ⟨?_, ?_, ?_⟩
  · simp [mountDashboard, fetchTickets, hfail]
  · cases hcu : b.currentUser <;>
      simp [mountDashboard, checkUser, fetchTickets, hu, hp, hcu, hfail,
        hempty]
  · intro u hcu hprof
    simp [mountDashboard, checkUser, fetchTickets, hcu, hprof,
      adminTileRendered]

/-- Witness for C6 at concrete failing and empty backends with a session
whose profile row is missing. -/
theorem backend_failures_degrade_witness :
    (⟨some ⟨"u1"⟩, fun _ => none, none⟩ : Backend).ticketsData = none ∧
    (⟨some ⟨"u1"⟩, fun _ => none, some []⟩ : Backend).ticketsData = some [] ∧
    (⟨some ⟨"u1"⟩, fun _ => none, some []⟩ : Backend).currentUser
      = (⟨some ⟨"u1"⟩, fun _ => none, none⟩ : Backend).currentUser ∧
    (⟨some ⟨"u1"⟩, fun _ => none, some []⟩ : Backend).profileRow
      = (⟨some ⟨"u1"⟩, fun _ => none, none⟩ : Backend).profileRow ∧
    ((mountDashboard ⟨some ⟨"u1"⟩, fun _ => none, none⟩).1.tickets = [] ∧
     mountDashboard ⟨some ⟨"u1"⟩, fun _ => none, none⟩
       = mountDashboard ⟨some ⟨"u1"⟩, fun _ => none, some []⟩ ∧
     (∀ u, (⟨some ⟨"u1"⟩, fun _ => none, none⟩ : Backend).currentUser = some u →
       (⟨some ⟨"u1"⟩, fun _ => none, none⟩ : Backend).profileRow u.id = none →
       (mountDashboard ⟨some ⟨"u1"⟩, fun _ => none, none⟩).1.profile = none ∧
       adminTileRendered
         (mountDashboard ⟨some ⟨"u1"⟩, fun _ => none, none⟩).1.profile
           = false)) :=
  ⟨rfl, rfl, rfl, rfl,
   backend_failures_degrade ⟨some ⟨"u1"⟩, fun _ => none, none⟩
     ⟨some ⟨"u1"⟩, fun _ => none, some []⟩ rfl rfl rfl rfl⟩

/-- C7: sign-out invokes the backend session-termination call, then navigates
to the sign-in destination, then surfaces the confirmation toast — and this
effect sequence is the same whether the termination call succeeds or fails. -/
theorem handleLogout_effects (r rOther : SignOutResult) :
    handleLogout r
      = [Effect.signOutCall,
         Effect.navigateTo Route.login,
         Effect.toast "Logged out" "You have been logged out successfully"] ∧
    handleLogout r = handleLogout rOther :=
  ⟨rfl, rfl⟩

/-- C8: with loading finished and an empty ticket list, the dashboard renders
the explicit empty-state message, renders no ticket rows, and this view is
distinct from the loading view. -/
theorem emptyState_rendering (s : DashboardState)
    (hT : s.tickets = []) (hL : s.loading = false) :
    renderDashboard s
      = DashboardView.mainView (adminTileRendered s.profile)
          (TicketSection.emptyState
            "No tickets found. Create your first ticket to get started!") ∧
    (∀ items, renderTicketSection s.tickets ≠ TicketSection.rows items) ∧
    renderDashboard s ≠ DashboardView.loadingView := by
  refine ⟨?_, ?_, ?_⟩
  · simp [renderDashboard, hL, renderTicketSection, hT]
  · intro items
    simp [renderTicketSection, hT]
  · simp [renderDashboard, hL]

/-- Witness for C8 at a concrete ready state with zero tickets. -/
theorem emptyState_rendering_witness :
    (⟨some ⟨"u1"⟩, none, [], false⟩ : DashboardState).tickets = [] ∧
    (⟨some ⟨"u1"⟩, none, [], false⟩ : DashboardState).loading = false ∧
    (renderDashboard ⟨some ⟨"u1"⟩, none, [], false⟩
       = DashboardView.mainView
           (adminTileRendered
             (⟨some ⟨"u1"⟩, none, [], false⟩ : DashboardState).profile)
           (TicketSection.emptyState
             "No tickets found. Create your first ticket to get started!") ∧
     (∀ items,
       renderTicketSection
           (⟨some ⟨"u1"⟩, none, [], false⟩ : DashboardState).tickets
         ≠ TicketSection.rows items) ∧
     renderDashboard ⟨some ⟨"u1"⟩, none, [], false⟩
       ≠ DashboardView.loadingView) :=
  ⟨rfl, rfl,
   emptyState_rendering ⟨some ⟨"u1"⟩, none, [], false⟩ rfl rfl⟩

/-- C9: on landing-surface mount, an existing session triggers navigation to
the dashboard destination; with no session, no navigation is issued, the
surface stays on the landing route, and the public content is what renders. -/
theorem indexMount_session_gate (u : User) :
    indexMount (some u) = [Route.dashboard] ∧
    indexMount none = [] ∧
    displayedRouteAfter Route.landing (indexMount none) = Route.landing ∧
    renderIndex = LandingView.publicContent :=
  ⟨rfl, rfl, rfl, rfl⟩

/-- C10: the ticket section is a pass-through of the ticket list: for every
non-empty list, it renders exactly the mapped rows — one row per ticket, in
list order, no limiting, filtering, deduplication or reordering — so a list
longer than 5 would render in full. -/
theorem renderTicketSection_passthrough (tickets : List Ticket)
    (h : tickets ≠ []) :
    renderTicketSection tickets
      = TicketSection.rows (tickets.map renderTicketRow) ∧
    (tickets.map renderTicketRow).length = tickets.length ∧
    (∀ i : Nat, (tickets.map renderTicketRow)[i]?
      = (tickets[i]?).map renderTicketRow) := by
  refine ⟨?_, List.length_map tickets renderTicketRow, ?_⟩
  · have hlen : tickets.length ≠ 0 := by
      simpa [List.length_eq_zero] using h
    simp [renderTicketSection, hlen]
  · intro i
    simp [List.getElem?_map]

/-- Witness for C10 at a concrete 6-ticket list (longer than the query
limit). -/
theorem renderTicketSection_passthrough_witness :
    sampleTickets ≠ [] ∧
    (renderTicketSection sampleTickets
       = TicketSection.rows (sampleTickets.map renderTicketRow) ∧
     (sampleTickets.map renderTicketRow).length = sampleTickets.length ∧
     (∀ i : Nat, (sampleTickets.map renderTicketRow)[i]?
       = (sampleTickets[i]?).map renderTicketRow)) :=
  ⟨by decide, renderTicketSection_passthrough sampleTickets (by decide)⟩

end QuickDesk
